import Mathlib

/-!
Verification of the conversation-orchestration and escalation engine of the
ai_chat_bot repository, via a shallow embedding of the relevant Python
modules (`counsellors_select_algo.py`, `router.py`, `ticket.py`,
`database/db.py`, `users.py`, `data_extractor.py`, `chat_handler.py`,
`ai_bot/ai_bot.py`, `ai_bot/menstrual_health_prompt.py`) into Lean.

External collaborators (the regex engine, the HTTP transport, the retriever,
the LLM, the intent classifier) are modelled as oracle parameters; everything
the repository itself computes is translated definition by definition.
-/

namespace AIChatBot

/-! ## Python string/int preliminaries

`pyStrip` models Python `str.strip()` (removal of leading/trailing
whitespace) and `pyLower` models `str.lower()`; both are written over the
underlying character list so that they evaluate on concrete inputs.
`pyInt` models `int(s)` on an already-stripped string: an optional sign
followed by a non-empty run of decimal digits succeeds, anything else
raises `ValueError` (modelled as `none`).  (Python's underscore digit
grouping, e.g. `int("1_0")`, is not modelled; no claim depends on it.) -/

def pyStrip (s : String) : String :=
  ⟨((s.data.dropWhile Char.isWhitespace).reverse.dropWhile
      Char.isWhitespace).reverse⟩

def pyLower (s : String) : String := ⟨s.data.map Char.toLower⟩

def digitsToNat (cs : List Char) : Nat :=
  cs.foldl (fun acc c => acc * 10 + (c.toNat - Char.toNat '0')) 0

def pyInt (s : String) : Option Int :=
  let cs := (pyStrip s).toList
  let signed : Bool × List Char :=
    match cs with
    | [] => (false, [])
    | c :: rest =>
      if c = '-' then (true, rest)
      else if c = '+' then (false, rest)
      else (false, cs)
  let neg := signed.1
  let digits := signed.2
  if digits.isEmpty ∨ ¬ digits.all Char.isDigit then none
  else if neg then some (-(digitsToNat digits : Int))
  else some (digitsToNat digits : Int)

/-! ## Round-robin counsellor selection (`counsellors_select_algo.py`)

The Python function keeps a function attribute `round_robin.last_index`
(absent until first used, then an integer).  We model that process-wide
mutable cell as an `Option Int` threaded through the calls.  The roster is
re-fetched on every call (`counsellors.list_counsellors()`), so each call
takes the roster current at that moment as an argument.  On an empty roster
the function returns `None` *before* touching `last_index`. -/

def round_robin (roster : List String) (lastIndex : Option Int) :
    Option String × Option Int :=
  if roster.isEmpty then (none, lastIndex)
  else
    let last := lastIndex.getD (-1)
    let i := (last + 1) % (roster.length : Int)
    (roster.get? i.toNat, some i)

/-- Successive calls of `round_robin`, one per element of `rosters` (the
roster fetched fresh at each call), starting from an unset `last_index`
cell state `s`.  Returns the list of selected counsellors. -/
def roundRobinTrace (rosters : List (List String)) (s : Option Int) :
    List (Option String) :=
  match rosters with
  | [] => []
  | r :: rs =>
    let step := round_robin r s
    step.1 :: roundRobinTrace rs step.2

/-! ## Tickets and escalation (`ticket.py`, `database/db.py`, `chat_handler.py`) -/

/-- A row of the `tickets` table.  `db.create_ticket` inserts
`(id, user, transcript, status)` leaving the `handler` column NULL. -/
structure Ticket where
  id : String
  user : String
  transcript : String
  status : String
  handler : Option String
deriving Repr, DecidableEq

/-- `db.create_ticket(user_id, ticket_id, transcript)`:
`INSERT INTO tickets (id, user, transcript, status) VALUES (?,?,?, "open")`. -/
def db_create_ticket (user_id ticket_id transcript : String) : Ticket :=
  { id := ticket_id, user := user_id, transcript := transcript,
    status := "open", handler := none }

/-- `ticket.create_ticket(user)`: builds `ticket_id = f"00T{user}"` and
inserts the row.  Returns the ticket id together with the created row. -/
def create_ticket (user transcript : String) : String × Ticket :=
  let ticket_id := "00T" ++ user
  (ticket_id, db_create_ticket user ticket_id transcript)

/-- Side effects of `db.assign_ticket_handler(ticket_id, handler)`:
the (possibly updated) ticket row, the rows inserted into
`tickets_assignment`, whether the owning user's handler was set to
`'counsellor'` (the `no_counsellor` branch), the writes to
`counsellors.current_ticket` (the `single_counsellor` branch), and the
boolean return value. -/
structure AssignEffects where
  ticket : Ticket
  assignmentRows : List (String × Option String)
  userHandlerSetCounsellor : Bool
  currentTicketWrites : List (Option String × String)
  returned : Bool
deriving Repr, DecidableEq

/-- `db.assign_ticket_handler(ticket_id, handler)` for deployment mode
`mode` (the `MODE` environment variable): in mode `no_counsellor` it first
sets the ticket owner's handler to `'counsellor'`; then, if the mode is
`single_counsellor` it records the ticket on the counsellor's
`current_ticket` column, and **otherwise** it sets the ticket's handler,
moves its status to `in_progress` and inserts one `tickets_assignment`
row; finally it returns `True`. -/
def db_assign_ticket_handler (mode : String) (t : Ticket)
    (handler : Option String) : AssignEffects :=
  let userSet := mode == "no_counsellor"
  if mode == "single_counsellor" then
    { ticket := t, assignmentRows := [],
      userHandlerSetCounsellor := userSet,
      currentTicketWrites := [(handler, t.id)], returned := true }
  else
    { ticket := { t with handler := handler, status := "in_progress" },
      assignmentRows := [(t.id, handler)],
      userHandlerSetCounsellor := userSet,
      currentTicketWrites := [], returned := true }

/-- Result of `chat_handler.escalate_to_counsellor(user)`. -/
structure EscalationResult where
  userHandlerWrite : String
  ticketId : String
  counsellor : Option String
  assign : AssignEffects
  rrState : Option Int
deriving Repr, DecidableEq

/-- `chat_handler.escalate_to_counsellor(user)`: set the user's handler to
`'counsellor'`, create the ticket (id `f"00T{user}"` over the transcript),
pick a counsellor by round robin over the roster fetched at that moment,
and assign.  `roster` and `rrState` are the counsellor roster and the
round-robin cell at call time; `transcript` is the generated transcript. -/
def escalate_to_counsellor (mode : String) (roster : List String)
    (rrState : Option Int) (user transcript : String) : EscalationResult :=
  let ct := create_ticket user transcript
  let rr := round_robin roster rrState
  { userHandlerWrite := "counsellor",
    ticketId := ct.1,
    counsellor := rr.1,
    assign := db_assign_ticket_handler mode ct.2 rr.1,
    rrState := rr.2 }

/-! ## User persistence (`database/db.py`, `users.py`) -/

/-- A row of the `users` table (the columns the core reads or writes). -/
structure UserRecord where
  id : String
  handler : String
  auth_key : Option String
  gender : Option String
  age_range : Option String
deriving Repr, DecidableEq

/-- `db.save_user(user_id)`:
`INSERT INTO users (id, handler) VALUES (?, "ai_bot")`. -/
def db_save_user (user_id : String) : UserRecord :=
  { id := user_id, handler := "ai_bot", auth_key := none,
    gender := none, age_range := none }

/-- `db.update_user_handler(user_id, handler)`: an unconditional
`UPDATE users SET handler = ?` — any string is accepted — returning `True`. -/
def db_update_user_handler (u : UserRecord) (handler : String) :
    UserRecord × Bool :=
  ({ u with handler := handler }, true)

/-- The field-name whitelist checked by `db.update_user`. -/
def update_user_whitelist : List String :=
  ["handler", "auth_key", "gender", "age_range"]

/-- The column update performed by `db.update_user` for a whitelisted field. -/
def apply_user_field (u : UserRecord) (field data : String) : UserRecord :=
  if field == "handler" then { u with handler := data }
  else if field == "auth_key" then { u with auth_key := some data }
  else if field == "gender" then { u with gender := some data }
  else { u with age_range := some data }

/-- `db.update_user(user_id, field, data)`: raises
`ValueError("Invalid field name")` when `field` is not in the whitelist,
otherwise runs `UPDATE users SET {field} = ?` and returns `True`. -/
def db_update_user (u : UserRecord) (field data : String) :
    Except String (UserRecord × Bool) :=
  if field ∈ update_user_whitelist then
    .ok (apply_user_field u field data, true)
  else
    .error "Invalid field name"

/-- The handler values the core ever passes to
`users.update_user_handler` / `db.update_user_handler`:
`"language_selector"` (chat_handler first-time-user branch),
`"onboarding"` (language-selection branch),
`"ai_bot"` (onboarding completion branch),
`"counsellor"` (`escalate_to_counsellor`). -/
def core_handler_writes : List String :=
  ["language_selector", "onboarding", "ai_bot", "counsellor"]

/-- The handler vocabulary used by the specification. -/
def spec_handler_values : List String :=
  ["new", "language_selecting", "onboarding", "ai_assisted", "escalated"]

/-- The correspondence between the code's literal handler strings and the
specification's enum names (the spec's glossary maps `handler` to the
language selector, onboarding engine, AI assistant or human counsellor). -/
def spec_handler_name : String → Option String
  | "ai_bot" => some "ai_assisted"
  | "language_selector" => some "language_selecting"
  | "onboarding" => some "onboarding"
  | "counsellor" => some "escalated"
  | _ => none

/-! ## Message delivery with retry (`router.py`)

`retry_with_backoff(func, max_retries, base_delay, max_delay,
backoff_factor)` loops `for attempt in range(max_retries + 1)`; on success
it returns the result; on a transport exception it re-raises when
`attempt == max_retries` and otherwise sleeps
`min(base_delay * backoff_factor ** attempt, max_delay)` plus
`random.uniform(0, 0.1)` times that delay, then retries.

We model the transport call as `func : Nat → Except String α` (the outcome
of the `attempt`-th invocation, `.error` being the caught
`RequestException`), the random draws as `uniform : Nat → ℚ` (the value of
`random.uniform(0, 0.1)` at the `attempt`-th failure), and we record the
slept durations and the number of invocations of `func`. -/

instance instDecEqExcept {ε α : Type} [DecidableEq ε] [DecidableEq α] :
    DecidableEq (Except ε α) := fun a b =>
  match a, b with
  | .ok x, .ok y =>
    if h : x = y then isTrue (by rw [h])
    else isFalse (fun hc => h (by injection hc))
  | .error x, .error y =>
    if h : x = y then isTrue (by rw [h])
    else isFalse (fun hc => h (by injection hc))
  | .ok _, .error _ => isFalse (fun hc => Except.noConfusion hc)
  | .error _, .ok _ => isFalse (fun hc => Except.noConfusion hc)

structure RetryOutcome (α : Type) where
  result : Except String α
  sleeps : List ℚ
  calls : Nat
deriving Repr

/-- The retry loop from attempt index `maxRetries - remaining` on;
`remaining = 0` is the `attempt == max_retries` iteration, where a failure
is re-raised instead of slept on. -/
def retryAux (func : Nat → Except String α) (uniform : Nat → ℚ)
    (base_delay max_delay backoff_factor : ℚ) :
    Nat → Nat → RetryOutcome α
  | 0, attempt =>
    match func attempt with
    | .ok r => { result := .ok r, sleeps := [], calls := 1 }
    | .error e => { result := .error e, sleeps := [], calls := 1 }
  | remaining + 1, attempt =>
    match func attempt with
    | .ok r => { result := .ok r, sleeps := [], calls := 1 }
    | .error _ =>
      let delay := min (base_delay * backoff_factor ^ attempt) max_delay
      let jitter := uniform attempt * delay
      let total_delay := delay + jitter
      let rest := retryAux func uniform base_delay max_delay backoff_factor
        remaining (attempt + 1)
      { result := rest.result, sleeps := total_delay :: rest.sleeps,
        calls := rest.calls + 1 }

/-- `router.retry_with_backoff` with its defaults
`max_retries=3, base_delay=1, max_delay=60, backoff_factor=2`
supplied by the caller. -/
def retry_with_backoff (func : Nat → Except String α) (uniform : Nat → ℚ)
    (max_retries : Nat) (base_delay max_delay backoff_factor : ℚ) :
    RetryOutcome α :=
  retryAux func uniform base_delay max_delay backoff_factor max_retries 0

/-- The two ways loading `routes.json` can fail before any route is
consulted: `FileNotFoundError` and `json.JSONDecodeError`. -/
inductive ConfigError where
  | fileNotFound
  | jsonDecode
deriving Repr, DecidableEq

/-- One named route of `routes.json` (the fields `route_message` reads). -/
structure RouteConfig where
  api_url : Option String
  api_token : Option String
  timeout : ℚ
  endpoint : List (String × String)
deriving Repr

/-- Result of `router.route_message`: the returned value (`.error` is the
`{"error": ...}` dictionary), the backoff sleeps performed, and the number
of HTTP requests attempted. -/
structure RouteResult where
  result : Except String String
  sleeps : List ℚ
  attempts : Nat
deriving Repr, DecidableEq

/-- `router.route_message(route_name, user_id, message, message_type,
max_retries)`.  `config` is the parsed content of `routes.json` (or the
exception raised while opening/parsing it); `request` is the outcome of
the `attempt`-th `requests.post` (external transport); `uniform` the
random jitter draws.  A missing configuration file, malformed JSON, or a
route name absent from the configuration each return an error dictionary
immediately; otherwise the request runs under `retry_with_backoff` and a
final transport failure is wrapped in
`"Request failed after {max_retries + 1} attempts: ..."`. -/
def route_message (config : Except ConfigError (List (String × RouteConfig)))
    (route_name : String) (max_retries : Nat)
    (request : Nat → Except String String) (uniform : Nat → ℚ) :
    RouteResult :=
  match config with
  | .error .fileNotFound =>
    { result := .error ("Configuration file for " ++ route_name ++ " not found."),
      sleeps := [], attempts := 0 }
  | .error .jsonDecode =>
    { result := .error ("Error decoding JSON configuration for " ++ route_name ++ "."),
      sleeps := [], attempts := 0 }
  | .ok configurations =>
    match configurations.lookup route_name with
    | none =>
      { result := .error ("Route " ++ route_name ++ " not found in configuration."),
        sleeps := [], attempts := 0 }
    | some _ =>
      let r := retry_with_backoff request uniform max_retries 1 60 2
      match r.result with
      | .ok v => { result := .ok v, sleeps := r.sleeps, attempts := r.calls }
      | .error e =>
        { result := .error ("Request failed after " ++ toString (max_retries + 1)
            ++ " attempts: " ++ e),
          sleeps := r.sleeps, attempts := r.calls }

/-! ## Crisis / medical-alert detection and the AI reply
(`ai_bot/menstrual_health_prompt.py`, `ai_bot/ai_bot.py`)

The regular-expression engine (`re.search`) is an external collaborator and
is modelled as an oracle `reSearch : String → String → Bool` taking the
pattern and the (already lowercased) text.  The patterns themselves are
repository data and are carried verbatim. -/

/-- `MENSTRUAL_MEDICAL_ALERTS` from `menstrual_health_prompt.py`, in dict
insertion order. -/
def MENSTRUAL_MEDICAL_ALERTS : List (String × List String) :=
  [ ("severe_symptoms",
      [ "\\b(soaking through|bleeding through).\x7b0,20\x7d(every hour|hourly|very heavy)\\b",
        "\\b(severe pain|unbearable pain|excruciating|can\x27t stand)\\b",
        "\\b(fever|temperature|infection|foul smell|pus)\\b",
        "\\b(passed out|fainted|fainting|dizzy|very weak)\\b" ]),
    ("potential_emergency",
      [ "\\b(hemorrhage|won\x27t stop bleeding|bleeding for \\d+ days)\\b",
        "\\b(vomiting blood|blood clots|large clots)\\b",
        "\\b(can\x27t walk|collapsed|emergency)\\b" ]),
    ("chronic_concern",
      [ "\\b(months of pain|always painful|pain every month|nothing helps)\\b",
        "\\b(irregular|haven\x27t had period|missed \\d+ periods)\\b",
        "\\b(endometriosis|PCOS|fibroids)\\b" ]) ]

/-- `MEDICAL_ALERT_RESPONSES` from `menstrual_health_prompt.py`. -/
def MEDICAL_ALERT_RESPONSES : List (String × String) :=
  [ ("severe_symptoms",
     "Based on what you\x27re describing, I recommend seeing a healthcare provider soon. These symptoms could indicate conditions like endometriosis, fibroids, infections, or other medical issues that need proper diagnosis and treatment.\n\n⚠️ Seek medical attention if you experience:\n• Soaking through a pad/tampon every hour for several hours\n• Severe pain that prevents normal activities\n• Fever or signs of infection\n• Dizziness or fainting\n\nWhile I can provide general information, a medical professional can examine you and provide appropriate treatment for your specific situation."),
    ("potential_emergency",
     "⚠️ What you\x27re describing sounds like it could be a medical emergency.\n\nPlease seek immediate medical attention:\n• Go to the nearest emergency room, OR\n• Call emergency services\n\nSevere bleeding, passing large clots, fainting, or vomiting blood require urgent medical care.\n\nYour health and safety are the priority right now."),
    ("chronic_concern",
     "Chronic or severe menstrual pain that doesn\x27t respond to over-the-counter treatments should be evaluated by a healthcare provider. This could indicate conditions like:\n\n• Endometriosis\n• Fibroids\n• Polycystic Ovary Syndrome (PCOS)\n• Adenomyosis\n• Other reproductive health issues\n\nYou deserve proper diagnosis and treatment. A gynecologist or healthcare provider can help identify the cause and provide appropriate care. Don\x27t let anyone dismiss your pain as \"just cramps\" - if it\x27s interfering with your life, it deserves medical attention.") ]

/-- Inner loops of `detect_medical_alert`: walk the alert categories in
order and return the first whose pattern list has a match on the
lowercased text. -/
def detectAlertGo (reSearch : String → String → Bool) (text_lower : String) :
    List (String × List String) → Option String × Bool
  | [] => (none, false)
  | (alert_type, patterns) :: rest =>
    if patterns.any (fun p => reSearch p text_lower) then (some alert_type, true)
    else detectAlertGo reSearch text_lower rest

/-- `menstrual_health_prompt.detect_medical_alert(text)`:
lowercase the text, scan `MENSTRUAL_MEDICAL_ALERTS` in order, return
`(alert_type, True)` on the first matching pattern and `(None, False)`
otherwise. -/
def detect_medical_alert (reSearch : String → String → Bool) (text : String) :
    Option String × Bool :=
  detectAlertGo reSearch (pyLower text) MENSTRUAL_MEDICAL_ALERTS

/-- The external collaborators `ai_bot.get_response` calls, plus the
repository's intent classifier (`intent_inference.detect_intent`, a loaded
scikit-learn model, hence an oracle as well): `get_response` never invokes
the classifier, which the classifier-independence half of C1 makes formal.
`buildPrompt` stands for the pure string assembly `ai_bot.build_prompt`
(system prompt, context, history, language); its output is only ever passed
to the LLM, so every theorem below is quantified over it. -/
structure AIBotOracles where
  reSearch : String → String → Bool
  retrieve : String → List String
  llm : String → Except String String
  buildPrompt : String → String → String → List (String × String) → String
  classifyIntent : String → String × ℚ

/-- `ai_bot.get_response(user_query, lang, history)` (the active
definition, `ai_bot.py` lines 363–421).  Step 1 checks
`detect_medical_alert`; on an alert it picks
`MEDICAL_ALERT_RESPONSES.get(alert_type, MEDICAL_ALERT_RESPONSES["severe_symptoms"])`,
still retrieves context, asks the LLM, and returns the alert message with
the LLM reply appended — or the alert message alone if the LLM raises.
Otherwise the normal flow: empty retrieval yields a localized scope
message; an LLM exception yields a localized technical-difficulties
message; a reply is returned as-is. -/
def get_response (o : AIBotOracles) (user_query lang : String)
    (history : List (String × String)) : String :=
  let detected := detect_medical_alert o.reSearch user_query
  if detected.2 then
    let severeDefault := (MEDICAL_ALERT_RESPONSES.lookup "severe_symptoms").getD ""
    let alert_message :=
      match detected.1 with
      | some alert_type => (MEDICAL_ALERT_RESPONSES.lookup alert_type).getD severeDefault
      | none => severeDefault
    let context := String.intercalate "\n\n" (o.retrieve user_query)
    let prompt := o.buildPrompt context user_query lang history
    match o.llm prompt with
    | .ok response => alert_message ++ "\n\n" ++ response
    | .error _ => alert_message
  else
    let retrieved_docs := o.retrieve user_query
    if retrieved_docs.isEmpty then
      if pyLower lang = "fr" ∨ pyLower lang = "french" then
        "Je peux vous aider avec des questions sur la sant√© menstruelle, y compris les r√®gles, les crampes, les produits et la dignit√© menstruelle. Que souhaitez-vous savoir?"
      else
        "I can help with questions about menstrual health, including periods, cramps, products, and menstrual dignity. What would you like to know?"
    else
      let context := String.intercalate "\n\n" retrieved_docs
      let lang2 := if pyLower lang = "fr" ∨ pyLower lang = "french" then "french" else lang
      let prompt := o.buildPrompt context user_query lang2 history
      match o.llm prompt with
      | .ok response => response
      | .error _ =>
        if pyLower lang2 = "fr" ∨ pyLower lang2 = "french" then
          "Je rencontre des difficult√©s techniques. Veuillez r√©essayer ou consulter un professionnel de sant√© pour les questions m√©dicales."
        else
          "I\x27m having technical difficulties. Please try again or consult a healthcare provider for medical questions."

/-- The `ai_bot` branch of `chat_handler.incoming_messages`
(lines 392–406): given the value of `get_ai_response` (`none` models Python
`None`), send the hard-coded transient-difficulties message when it is
`None`; then, unless the response is the escalation sentinel, send the
response itself (so a `None` response is also passed to `send_message`,
modelled as sending `none`).  The sentinel triggers escalation and two
notification messages.  Returns the ordered list of `send_message`
payloads and whether `escalate_to_counsellor` was invoked. -/
def ai_bot_branch (user_language : String) (ai_response : Option String) :
    List (Option String) × Bool :=
  let difficulties :=
    if ai_response = none then
      [some "We are experiencing some dificulties. Try again soon"]
    else []
  if ai_response = some "Escalating to a counsellor..." then
    let notify :=
      if user_language = "fr" then
        "Un conseiller vous a été attribué. Vous pouvez maintenant discuter avec eux."
      else
        "A counsellor has been assigned to you. You can now chat with them."
    (difficulties ++
      [some notify,
       some "Due to the sensitive nature of your message, you have been connected to a counsellor. They will be with you shortly."],
     true)
  else
    (difficulties ++ [ai_response], false)

/-! ## Onboarding question engine (`data_extractor.py`, `chat_handler.py`)

A question's prompt and options can be plain values or per-language
dictionaries; the constraint descriptor is the optional `constraints`
dictionary (absent or empty modelled as `none`, matching Python's
`if not constraints`).  `re.match` is external and passed as an oracle. -/

/-- A question prompt: a localized dictionary or a plain string. -/
inductive QText where
  | byLang : List (String × String) → QText
  | plain : String → QText
deriving Repr, DecidableEq

/-- A question's options: a localized dictionary of lists or a plain list. -/
inductive QOptions where
  | byLang : List (String × List String) → QOptions
  | plain : List String → QOptions
deriving Repr, DecidableEq

/-- The `constraints` descriptor of one question; every field is read with
`dict.get` in the source, so absent keys are `none` / `false` here. -/
structure Constraints where
  ctype : Option String := none
  required : Bool := false
  min_value : Option Int := none
  max_value : Option Int := none
  min_length : Option Nat := none
  max_length : Option Nat := none
  pattern : Option String := none
  allow_text_input : Bool := false
  text_type : Option String := none
  error_message : List (String × String) := []
deriving Repr, DecidableEq

/-- One entry of the `user_data.json` question object. -/
structure Question where
  question : QText
  options : Option QOptions := none
  constraints : Option Constraints := none
deriving Repr, DecidableEq

/-- `data_extractor.set_next_question(question_list, current_qusetion)`
over the ordered key list: `None` yields the first key (`none` when the
list is empty, modelling the `IndexError`), a key at the last position
yields `"Done"`, an unknown key models the `ValueError` from
`list.index` as `none`. -/
def set_next_question (keys : List String) (current : Option String) :
    Option String :=
  match current with
  | none => keys.head?
  | some c =>
    match keys.indexOf? c with
    | none => none
    | some i => if i + 1 = keys.length then some "Done" else keys.get? (i + 1)

/-- `data_extractor.message_builder(question_list, question_title,
language)`: the localized prompt text and, when present, the
language-resolved option titles (from which the button message is built).
`none` models the `KeyError` on an unknown title. -/
def message_builder (questions : List (String × Question))
    (question_title language : String) :
    Option (Option String × Option (List String)) :=
  match questions.lookup question_title with
  | none => none
  | some q =>
    let question_text : Option String :=
      match q.question with
      | .byLang m =>
        match m.lookup language with
        | some t => some t
        | none => m.lookup "en"
      | .plain t => some t
    match q.options with
    | none => some (question_text, none)
    | some opts =>
      let resolved : Option (List String) :=
        match opts with
        | .byLang m =>
          match m.lookup language with
          | some l => some l
          | none => m.lookup "en"
        | .plain l => some l
      some (question_text, resolved)

/-- Maximum check of `validate_number` (reached when the minimum check
passes). -/
def validate_number_max (value : Int) (c : Constraints) (language : String) :
    Bool × Option String × Option String :=
  match c.max_value with
  | some m =>
    if value > m then
      (false, some ((c.error_message.lookup language).getD
        ("Value must be at most " ++ toString m)), none)
    else (true, none, some (toString value))
  | none => (true, none, some (toString value))

/-- `data_extractor.validate_number(response, constraints, language)`:
parse `int(response.strip())` (`ValueError` gives the localized
enter-a-valid-number message), then check `min_value` and `max_value`;
on success return `(True, None, str(value))`. -/
def validate_number (response : String) (c : Constraints) (language : String) :
    Bool × Option String × Option String :=
  match pyInt response with
  | none =>
    (false, some ((c.error_message.lookup language).getD
      (if language = "en" then "Please enter a valid number"
       else "Veuillez entrer un nombre valide")), none)
  | some value =>
    match c.min_value with
    | some m =>
      if value < m then
        (false, some ((c.error_message.lookup language).getD
          ("Value must be at least " ++ toString m)), none)
      else validate_number_max value c language
    | none => validate_number_max value c language

/-- `data_extractor.validate_text(response, constraints, language)`:
strip, then check `min_length`, `max_length` (a `0` bound is falsy in
Python and skipped) and the regex `pattern` (empty pattern falsy);
on success `(True, None, text)`. -/
def validate_text (reMatch : String → String → Bool) (response : String)
    (c : Constraints) (language : String) :
    Bool × Option String × Option String :=
  let text := pyStrip response
  if 0 < c.min_length.getD 0 ∧ text.length < c.min_length.getD 0 then
    (false, some ((c.error_message.lookup language).getD
      (if language = "en" then
        "Text must be at least " ++ toString (c.min_length.getD 0) ++ " characters"
       else
        "Le texte doit contenir au moins " ++ toString (c.min_length.getD 0) ++ " caractères")), none)
  else if 0 < c.max_length.getD 0 ∧ text.length > c.max_length.getD 0 then
    (false, some ((c.error_message.lookup language).getD
      (if language = "en" then
        "Text must be at most " ++ toString (c.max_length.getD 0) ++ " characters"
       else
        "Le texte ne doit pas dépasser " ++ toString (c.max_length.getD 0) ++ " caractères")), none)
  else
    match c.pattern with
    | some p =>
      if p ≠ "" ∧ ¬ reMatch p text then
        (false, some ((c.error_message.lookup language).getD
          (if language = "en" then "Invalid format" else "Format invalide")), none)
      else (true, none, some text)
    | none => (true, none, some text)

/-- The final invalid-option result of `validate_choice`. -/
def choice_error (c : Constraints) (language : String) :
    Bool × Option String × Option String :=
  (false, some ((c.error_message.lookup language).getD
    (if language = "en" then "Please select one of the options"
     else "Veuillez sélectionner l\x27une des options")), none)

/-- `data_extractor.validate_choice(response, question, constraints,
language)`: accept when the lowercased response is among the current
language's options or any language's options; otherwise, when
`allow_text_input` is set, fall back to number or text validation
(text validation under derived bounds `min_length` default 1,
`max_length` default 200); otherwise the localized
select-one-of-the-options error. -/
def validate_choice (reMatch : String → String → Bool) (response : String)
    (q : Question) (c : Constraints) (language : String) :
    Bool × Option String × Option String :=
  let response_lower := pyLower (pyStrip response)
  let opts : List String × List String :=
    match q.options with
    | none => ([], [])
    | some (.byLang m) =>
      (((m.lookup language).getD []).map pyLower,
       m.foldl (fun acc kv => acc ++ kv.2.map pyLower) [])
    | some (.plain l) => (l.map pyLower, l.map pyLower)
  if response_lower ∈ opts.1 ∨ response_lower ∈ opts.2 then
    (true, none, some (pyStrip response))
  else if c.allow_text_input then
    let text_type := c.text_type.getD "text"
    if text_type = "number" then validate_number response c language
    else if text_type = "text" then
      let text_constraints : Constraints :=
        { min_length := some (c.min_length.getD 1),
          max_length := some (c.max_length.getD 200),
          pattern := c.pattern,
          error_message := c.error_message }
      validate_text reMatch response text_constraints language
    else choice_error c language
  else choice_error c language

/-- `data_extractor.validate_user_response(response, question_key,
questions_obj, language)`: the empty-response branch (required questions
reject, optional ones accept with `None`), the unknown-question error, the
no-constraints accept, and the dispatch on the constraint type
(an unrecognized type accepts the stripped response). -/
def validate_user_response (reMatch : String → String → Bool)
    (response : String) (question_key : String)
    (questions_obj : List (String × Question)) (language : String) :
    Bool × Option String × Option String :=
  if pyStrip response = "" then
    let constraints :=
      match questions_obj.lookup question_key with
      | some q => q.constraints
      | none => none
    if (constraints.map Constraints.required).getD false then
      (false, some (if language = "fr" then
          "Cette question est obligatoire. Veuillez fournir une réponse."
        else "This question is required. Please provide an answer."), none)
    else (true, none, none)
  else
    match questions_obj.lookup question_key with
    | none =>
      (false, some (if language = "fr" then
          "Une erreur s\x27est produite. Veuillez réessayer."
        else "An error occurred. Please try again."), none)
    | some question =>
      match question.constraints with
      | none => (true, none, some (pyStrip response))
      | some c =>
        let constraint_type := c.ctype.getD "text"
        if constraint_type = "number" then validate_number response c language
        else if constraint_type = "text" then validate_text reMatch response c language
        else if constraint_type = "choice" then validate_choice reMatch response question c language
        else (true, none, some (pyStrip response))

/-- `RESEND_MSG` from the onboarding branch of
`chat_handler.incoming_messages`. -/
def RESEND_MSG : String :=
  "Sorry the option you selected is not valid. Please select a valid option\n            \n            "

/-- `field_mapping` from the onboarding branch of
`chat_handler.incoming_messages`: question key → users-table column. -/
def field_mapping : List (String × String) :=
  [ ("age", "age"), ("gender", "gender"), ("children", "number_of_children"),
    ("location", "location"), ("disabilities", "disability"),
    ("arv_medication", "arv"), ("displaced", "internally_displaced"),
    ("occupation", "occupation"),
    ("last_menstrual_period", "last_menstrual_flow"),
    ("marital_status", "marital_status"),
    ("religious_background", "religious_background") ]

/-- `skip_values` from the onboarding branch. -/
def skip_values : List String :=
  ["skip", "passer", "prefer not to say", "préfère ne pas dire"]

/-- The observable effects of one text answer processed by the onboarding
branch of `chat_handler.incoming_messages` (lines 298–354):
`writes` are the `(field, value)` pairs passed to `users.update_user`
in order, `handlerWrites` the values passed to
`users.update_user_handler`, `sent` the plain text messages sent to the
user, `resentQuestion` the `message_builder` output resent on a
validation failure, `nextQuestionKey` the advanced-to key, and `level`
the onboarding cursor value at the end of the step (the value the last
`onboarding_level` write carries, or the unchanged current key). -/
structure OnboardStep where
  writes : List (String × String)
  handlerWrites : List String
  sent : List String
  resentQuestion : Option (Option String × Option (List String))
  nextQuestionKey : Option String
  level : String
deriving Repr, DecidableEq

/-- The onboarding branch of `chat_handler.incoming_messages` for a text
message: initialize the cursor when unset (Python falsy: `None` or `""`),
validate the response; when invalid, send the error and resend the same
question without touching the cursor; when valid, persist the sanitized
value to the mapped profile field unless it is a skip token, then advance
via `set_next_question` — `"Done"` flips the handler to `"ai_bot"` and
sends the localized completion message, otherwise the cursor is written
and the next question sent.  `none` models an uncaught `IndexError` /
`ValueError` (empty question list or unknown current key). -/
def onboarding_text_step (reMatch : String → String → Bool)
    (questions_obj : List (String × Question)) (onboarding_level : Option String)
    (response : String) (user_lang : String) : Option OnboardStep :=
  let keys := questions_obj.map Prod.fst
  let init : Option (String × List (String × String)) :=
    match onboarding_level with
    | some c =>
      if c = "" then keys.head?.map (fun k => (k, [("onboarding_level", k)]))
      else some (c, [])
    | none => keys.head?.map (fun k => (k, [("onboarding_level", k)]))
  match init with
  | none => none
  | some (current_question, initWrites) =>
    let v := validate_user_response reMatch response current_question questions_obj user_lang
    if v.1 then
      let saveWrites :=
        match field_mapping.lookup current_question, v.2.2 with
        | some db_field, some sanitized_value =>
          if sanitized_value = "" then []
          else if pyLower sanitized_value ∈ skip_values then []
          else [(db_field, sanitized_value)]
        | _, _ => []
      match set_next_question keys (some current_question) with
      | none => none
      | some next =>
        if next = "Done" then
          some { writes := initWrites ++ saveWrites,
                 handlerWrites := ["ai_bot"],
                 sent := [if user_lang = "fr" then
                     "Vos informations sont sûres et confidentielles. Comment pouvons-nous vous aider ?"
                   else "Your information is safe and confidential. How can we help you?"],
                 resentQuestion := none,
                 nextQuestionKey := none,
                 level := current_question }
        else
          some { writes := initWrites ++ saveWrites ++ [("onboarding_level", next)],
                 handlerWrites := [],
                 sent := [],
                 resentQuestion := none,
                 nextQuestionKey := some next,
                 level := next }
    else
      match message_builder questions_obj current_question user_lang with
      | none => none
      | some mb =>
        some { writes := initWrites,
               handlerWrites := [],
               sent := (match v.2.1 with | some e => [e] | none => []) ++ [RESEND_MSG],
               resentQuestion := some mb,
               nextQuestionKey := none,
               level := current_question }

/-! ## Concrete instances used by the witnesses -/

/-- The `number[min=0]` constraint of the spec's onboarding example. -/
def c4_number_constraints : Constraints :=
  { ctype := some "number", required := true, min_value := some 0 }

/-- A two-question onboarding set whose first question carries the
`number[min=0]` constraint. -/
def c4_questions : List (String × Question) :=
  [ ("age", { question := .plain "How old are you?",
              constraints := some c4_number_constraints }),
    ("location", { question := .plain "Where do you live?" }) ]

/-- The step effects of answering `"-1"` to the `"age"` question. -/
def c4_out : OnboardStep :=
  { writes := [], handlerWrites := [],
    sent := ["Value must be at least 0", RESEND_MSG],
    resentQuestion := some (some "How old are you?", none),
    nextQuestionKey := none, level := "age" }

/-- An oracle bundle whose regex engine matches everything and whose LLM
fails; the classifier confidently reports a non-escalation intent. -/
def c1_oracles : AIBotOracles :=
  { reSearch := fun _ _ => true, retrieve := fun _ => [],
    llm := fun _ => .error "boom",
    buildPrompt := fun _ _ _ _ => "",
    classifyIntent := fun _ => ("general_question", 9/10) }

/-- An oracle bundle with no crisis match, a non-empty retrieval and a
failing LLM. -/
def c7_oracles : AIBotOracles :=
  { reSearch := fun _ _ => false, retrieve := fun _ => ["doc"],
    llm := fun _ => .error "socket reset by peer",
    buildPrompt := fun _ _ _ _ => "",
    classifyIntent := fun _ => ("general_question", 9/10) }

/-- A one-route configuration table. -/
def c9_routes : List (String × RouteConfig) :=
  [ ("whatsapp",
     { api_url := some "http://localhost", api_token := some "t",
       timeout := 10, endpoint := [("text", "messages/text")] }) ]

/-! ## Theorems -/

/-- Helper: `detectAlertGo` reports a category exactly when it reports a
match. -/
theorem detectAlertGo_fst_some_iff_snd (r : String → String → Bool) (t : String) :
    ∀ l : List (String × List String),
      ((detectAlertGo r t l).1.isSome) = (detectAlertGo r t l).2 := by
  intro l
  induction l with
  | nil => simp [detectAlertGo]
  | cons hd tl ih =>
    by_cases h : hd.2.any (fun p => r p t) <;>
      simp [detectAlertGo, h, ih]

/-- Helper: a category reported by `detectAlertGo` is a key of the scanned
list. -/
theorem detectAlertGo_fst_mem (r : String → String → Bool) (t : String) :
    ∀ (l : List (String × List String)) (c : String),
      (detectAlertGo r t l).1 = some c → c ∈ l.map Prod.fst := by
  intro l
  induction l with
  | nil => intro c h; simp [detectAlertGo] at h
  | cons hd tl ih =>
    intro c h
    by_cases hm : hd.2.any (fun p => r p t)
    · simp [detectAlertGo, hm] at h
      simp [h]
    · simp [detectAlertGo, hm] at h
      simpa using Or.inr (ih c h)

/-- C2 (counterexample): with the roster `[A,B,C]` on the first two calls
and `B` removed before the third call, the three calls return `A, B, A` —
not `A, C, A` as the claim states (the second call still sees `B`, and the
third call lands on index `(1+1) % 2 = 0`, i.e. `A`). -/
theorem C2_counterexample :
    roundRobinTrace [["A", "B", "C"], ["A", "B", "C"], ["A", "C"]] none ≠
      [some "A", some "C", some "A"] := by decide

/-- C2 (amended): over a fixed roster `[A,B,C]` four successive calls
return `A,B,C,A`; if `B` is removed before the third call, the full trace
is `A,B,A,C,A`, so the calls from the third call onwards return `A,C,A`
(the roster is re-fetched, so the removal takes effect at the third call). -/
theorem C2_round_robin_traces :
    roundRobinTrace
        [["A", "B", "C"], ["A", "B", "C"], ["A", "B", "C"], ["A", "B", "C"]] none
      = [some "A", some "B", some "C", some "A"] ∧
    roundRobinTrace
        [["A", "B", "C"], ["A", "B", "C"], ["A", "C"], ["A", "C"], ["A", "C"]] none
      = [some "A", some "B", some "A", some "C", some "A"] ∧
    (roundRobinTrace
        [["A", "B", "C"], ["A", "B", "C"], ["A", "C"], ["A", "C"], ["A", "C"]] none).drop 2
      = [some "A", some "C", some "A"] := by
  refine ⟨by decide, by decide, by decide⟩

/-- C3 (counterexample): with `max_retries = 3` and a transport that fails
on the first three invocations and succeeds on the fourth, the code sleeps
`1, 2, 4` seconds (zero jitter here), **makes a fourth attempt**, and
returns its successful result — so after three consecutive transient
failures no error is returned and a 4th attempt is made, contrary to the
claim. -/
theorem C3_counterexample :
    (retry_with_backoff
        (fun k => if k < 3 then (.error "timeout" : Except String String) else .ok "delivered")
        (fun _ => 0) 3 1 60 2).result = .ok "delivered" ∧
    (retry_with_backoff
        (fun k => if k < 3 then (.error "timeout" : Except String String) else .ok "delivered")
        (fun _ => 0) 3 1 60 2).calls = 4 ∧
    (retry_with_backoff
        (fun k => if k < 3 then (.error "timeout" : Except String String) else .ok "delivered")
        (fun _ => 0) 3 1 60 2).sleeps = [1, 2, 4] := by
  refine ⟨by decide, by decide, by norm_num [retry_with_backoff, retryAux, min_def]⟩

/-- C3 (amended): with `maxRetries = 3`, `base = 1`, `factor = 2`,
`maxDelay = 60` and each jitter draw in `[0, 10%]`, the slept delays
between attempts are `min(base·factor^attempt, maxDelay)` plus the jitter
share; on **four** consecutive transient failures the sleeps are
`1·(1+u₀), 2·(1+u₁), 4·(1+u₂)` — within `[1, 1.1], [2, 2.2], [4, 4.4]` —
the error is then returned and a 5th attempt is never made (exactly
`maxRetries + 1 = 4` invocations); after only three consecutive failures a
4th attempt is made and its success is returned. -/
theorem C3_retry_backoff :
    ∀ (e r : String) (u : ℕ → ℚ),
      (∀ i, 0 ≤ u i ∧ u i ≤ 1 / 10) →
      ((retry_with_backoff (fun _ => (.error e : Except String String)) u 3 1 60 2).result
          = .error e ∧
       (retry_with_backoff (fun _ => (.error e : Except String String)) u 3 1 60 2).calls = 4 ∧
       (retry_with_backoff (fun _ => (.error e : Except String String)) u 3 1 60 2).sleeps
          = [1 + u 0 * 1, 2 + u 1 * 2, 4 + u 2 * 4] ∧
       (1 ≤ 1 + u 0 * 1 ∧ 1 + u 0 * 1 ≤ 11 / 10) ∧
       (2 ≤ 2 + u 1 * 2 ∧ 2 + u 1 * 2 ≤ 22 / 10) ∧
       (4 ≤ 4 + u 2 * 4 ∧ 4 + u 2 * 4 ≤ 44 / 10)) ∧
      (retry_with_backoff
          (fun k => if k < 3 then (.error e : Except String String) else .ok r) u 3 1 60 2
        = { result := .ok r, sleeps := [1 + u 0 * 1, 2 + u 1 * 2, 4 + u 2 * 4], calls := 4 }) := by
  intro e r u hu
  obtain ⟨h00, h01⟩ := hu 0
  obtain ⟨h10, h11⟩ := hu 1
  obtain ⟨h20, h21⟩ := hu 2
  refine ⟨⟨?_, ?_, ?_, ⟨?_, ?_⟩, ⟨?_, ?_⟩, ⟨?_, ?_⟩⟩, ?_⟩
  · simp [retry_with_backoff, retryAux]
  · simp [retry_with_backoff, retryAux]
  · norm_num [retry_with_backoff, retryAux, min_def]
  · nlinarith
  · nlinarith
  · nlinarith
  · nlinarith
  · nlinarith
  · nlinarith
  · norm_num [retry_with_backoff, retryAux, min_def]

/-- C3 (witness): the amended theorem at zero jitter and four consecutive
failures: error result, four invocations, sleeps exactly `1, 2, 4`. -/
theorem C3_witness :
    (retry_with_backoff (fun _ => (.error "timeout" : Except String String))
        (fun _ => 0) 3 1 60 2).result = .error "timeout" ∧
    (retry_with_backoff (fun _ => (.error "timeout" : Except String String))
        (fun _ => 0) 3 1 60 2).calls = 4 ∧
    (retry_with_backoff (fun _ => (.error "timeout" : Except String String))
        (fun _ => 0) 3 1 60 2).sleeps = [1 + 0 * 1, 2 + 0 * 2, 4 + 0 * 4] := by
  have h := C3_retry_backoff "timeout" "delivered" (fun _ => 0) (by intro i; norm_num)
  exact ⟨h.1.1, h.1.2.1, h.1.2.2.1⟩

/-- C5 (counterexample): in the `single_counsellor` deployment mode a
fully successful assignment (ticket created, counsellor `c1` selected,
`assign_ticket_handler` returning `True`) inserts **zero** rows into
`tickets_assignment` — the assignment is recorded on the counsellor's
`current_ticket` column instead — contradicting "each successful
assignment writes exactly one TicketAssignment record". -/
theorem C5_counterexample :
    (escalate_to_counsellor "single_counsellor" ["c1"] none "u1" "ts").assign.returned = true ∧
    (escalate_to_counsellor "single_counsellor" ["c1"] none "u1" "ts").counsellor = some "c1" ∧
    (escalate_to_counsellor "single_counsellor" ["c1"] none "u1" "ts").assign.assignmentRows
      = [] := by
  refine ⟨by decide, by decide, by decide⟩

/-- C5 (amended): the ticket identity is the deterministic function
`user ↦ "00T" ++ user` of the owning user alone — two escalations of the
same user yield equal ticket identities whatever the mode, roster,
round-robin state or transcript — and each successful assignment writes
exactly one TicketAssignment record in every deployment mode **except**
`single_counsellor`, where it writes none (the counsellor's
`current_ticket` is set instead). -/
theorem C5_ticket_identity_and_assignment :
    (∀ (user mode1 mode2 ts1 ts2 : String) (r1 r2 : List String) (s1 s2 : Option Int),
       (escalate_to_counsellor mode1 r1 s1 user ts1).ticketId =
         (escalate_to_counsellor mode2 r2 s2 user ts2).ticketId) ∧
    (∀ user ts, (create_ticket user ts).1 = "00T" ++ user) ∧
    (∀ (mode : String) (t : Ticket) (h : Option String),
       mode ≠ "single_counsellor" →
       (db_assign_ticket_handler mode t h).assignmentRows = [(t.id, h)] ∧
       (db_assign_ticket_handler mode t h).returned = true) ∧
    (∀ (t : Ticket) (h : Option String),
       (db_assign_ticket_handler "single_counsellor" t h).assignmentRows = []) := by
  refine ⟨?_, ?_, ?_, ?_⟩
  · intro user mode1 mode2 ts1 ts2 r1 r2 s1 s2
    rfl
  · intro user ts; rfl
  · intro mode t h hm
    have : (mode == "single_counsellor") = false := by
      simpa [beq_iff_eq] using hm
    simp [db_assign_ticket_handler, this]
  · intro t h
    simp [db_assign_ticket_handler]

/-- C5 (witness): instantiating the amended theorem in `no_counsellor`
mode: one assignment row is written and the two escalations of `u1`
produce equal ticket ids. -/
theorem C5_witness :
    (db_assign_ticket_handler "no_counsellor"
        (db_create_ticket "u1" "00Tu1" "ts") (some "c1")).assignmentRows
      = [("00Tu1", some "c1")] ∧
    (escalate_to_counsellor "no_counsellor" ["c1"] none "u1" "ts").ticketId =
      (escalate_to_counsellor "multi_counsellors_wp" [] (some 5) "u1" "other").ticketId := by
  constructor
  · exact ((C5_ticket_identity_and_assignment.2.2.1 "no_counsellor"
      (db_create_ticket "u1" "00Tu1" "ts") (some "c1") (by decide)).1)
  · exact C5_ticket_identity_and_assignment.1 "u1" "no_counsellor"
      "multi_counsellors_wp" "ts" "other" ["c1"] [] none (some 5)

/-- C6 (counterexample): the persistence boundary accepts arbitrary
handler values: `db.update_user_handler` stores the out-of-vocabulary
value `"bogus"` and returns `True`, and `db.update_user` on field
`"handler"` likewise accepts it — nothing is rejected, contradicting the
claim's "any other value is rejected at the persistence boundary". -/
theorem C6_counterexample :
    (db_update_user_handler (db_save_user "u1") "bogus").2 = true ∧
    (db_update_user_handler (db_save_user "u1") "bogus").1.handler = "bogus" ∧
    db_update_user (db_save_user "u1") "handler" "bogus" =
      .ok (apply_user_field (db_save_user "u1") "handler" "bogus", true) ∧
    "bogus" ∉ spec_handler_values := by
  refine ⟨by decide, by decide, by decide, by decide⟩

/-- C6 (amended): the handler values the core itself ever stores are
`ai_bot` (initial value written by `save_user`, and the AI-assisted
state), `language_selector`, `onboarding` and `counsellor`, whose
spec-level names all lie in
`{new, language_selecting, onboarding, ai_assisted, escalated}`; the
persistence boundary, however, performs no value-level validation:
`db.update_user_handler` stores **any** string and returns `True`. -/
theorem C6_core_handler_values :
    ((db_save_user "u1").handler :: core_handler_writes).map spec_handler_name
      = ["ai_assisted", "language_selecting", "onboarding", "ai_assisted",
         "escalated"].map some ∧
    (["ai_assisted", "language_selecting", "onboarding", "ai_assisted",
      "escalated"].all (fun s => spec_handler_values.contains s)) = true ∧
    (∀ (u : UserRecord) (v : String),
       db_update_user_handler u v = ({ u with handler := v }, true)) := by
  refine ⟨by decide, by decide, ?_⟩
  intro u v
  rfl

/-- C8: on an empty counsellor roster, `round_robin` returns `None`
without touching its index cell, and `escalate_to_counsellor` still
proceeds: the ticket `00T{user}` is created and the escalation completes
with no counsellor selected and the ticket's handler column left NULL
(unassigned) in every deployment mode — a degraded outcome, not a crash. -/
theorem C8_empty_roster :
    ∀ (s : Option Int) (mode user transcript : String),
      round_robin [] s = (none, s) ∧
      (escalate_to_counsellor mode [] s user transcript).counsellor = none ∧
      (escalate_to_counsellor mode [] s user transcript).ticketId = "00T" ++ user ∧
      (escalate_to_counsellor mode [] s user transcript).assign.ticket.handler = none ∧
      (escalate_to_counsellor mode [] s user transcript).rrState = s := by
  intro s mode user transcript
  by_cases h : mode == "single_counsellor" <;>
    simp [round_robin, escalate_to_counsellor, create_ticket, db_create_ticket,
      db_assign_ticket_handler, h]

/-- C9: non-transient delivery failures return an error dictionary
immediately — a missing `routes.json` (`FileNotFoundError`), a malformed
one (`json.JSONDecodeError`), or a route name absent from the
configuration all yield zero transport attempts and no backoff sleep. -/
theorem C9_nontransient_no_retry :
    ∀ (route : String) (mr : ℕ) (request : ℕ → Except String String)
      (u : ℕ → ℚ) (cfgs : List (String × RouteConfig)),
      route_message (.error .fileNotFound) route mr request u =
        { result := .error ("Configuration file for " ++ route ++ " not found."),
          sleeps := [], attempts := 0 } ∧
      route_message (.error .jsonDecode) route mr request u =
        { result := .error ("Error decoding JSON configuration for " ++ route ++ "."),
          sleeps := [], attempts := 0 } ∧
      (cfgs.lookup route = none →
        route_message (.ok cfgs) route mr request u =
          { result := .error ("Route " ++ route ++ " not found in configuration."),
            sleeps := [], attempts := 0 }) := by
  intro route mr request u cfgs
  refine ⟨rfl, rfl, ?_⟩
  intro hl
  simp [route_message, hl]

/-- C9 (witness): a route name missing from a concrete one-route
configuration fails immediately with zero attempts. -/
theorem C9_witness :
    route_message (.ok c9_routes) "missing" 3 (fun _ => .error "e") (fun _ => 0) =
      { result := .error ("Route " ++ "missing" ++ " not found in configuration."),
        sleeps := [], attempts := 0 } :=
  (C9_nontransient_no_retry "missing" 3 (fun _ => .error "e") (fun _ => 0)
    c9_routes).2.2 rfl

/-- C10: `db.update_user` raises `ValueError("Invalid field name")` for
every field outside the whitelist `{handler, auth_key, gender, age_range}`
and performs the update returning `True` for every field inside it; the
fields the state machine passes for language selection and onboarding
persistence — `language`, `onboarding_level`, `age`, `number_of_children`,
`location` — all lie outside the whitelist. -/
theorem C10_update_user_whitelist :
    (∀ (u : UserRecord) (field data : String),
       field ∉ update_user_whitelist →
       db_update_user u field data = .error "Invalid field name") ∧
    (∀ (u : UserRecord) (field data : String),
       field ∈ update_user_whitelist →
       db_update_user u field data = .ok (apply_user_field u field data, true)) ∧
    (["language", "onboarding_level", "age", "number_of_children", "location"].all
       (fun f => !update_user_whitelist.contains f)) = true := by
  refine ⟨?_, ?_, by decide⟩
  · intro u field data hf
    simp [db_update_user, hf]
  · intro u field data hf
    simp [db_update_user, hf]

/-- C10 (witness): `language` (passed by the language-selection branch) is
rejected with `ValueError`, while the whitelisted `handler` field updates
and returns `True`. -/
theorem C10_witness :
    db_update_user (db_save_user "u1") "language" "en" = .error "Invalid field name" ∧
    db_update_user (db_save_user "u1") "handler" "counsellor" =
      .ok (apply_user_field (db_save_user "u1") "handler" "counsellor", true) :=
  ⟨C10_update_user_whitelist.1 (db_save_user "u1") "language" "en" (by decide),
   C10_update_user_whitelist.2.1 (db_save_user "u1") "handler" "counsellor" (by decide)⟩

/-- C1: whenever the inbound text matches a crisis/medical-alert regex
category `c`, the escalation decision is positive
(`requires_attention = True`), the category has a response template of its
own, the reply delivered to the user is that category's template (selected
through the `dict.get` whose default is the generic `severe_symptoms`
template) — prepended to the LLM reply, or alone if the LLM fails — and
the outcome is independent of the intent classifier: any oracle bundle
agreeing on everything except `classifyIntent` produces the identical
reply, so the crisis match takes precedence over any intent label and
confidence. -/
theorem C1_crisis_precedence :
    ∀ (o : AIBotOracles) (text lang : String) (history : List (String × String))
      (c : String),
      (detect_medical_alert o.reSearch text).1 = some c →
      (detect_medical_alert o.reSearch text).2 = true ∧
      (MEDICAL_ALERT_RESPONSES.lookup c).isSome = true ∧
      ((∃ resp,
          o.llm (o.buildPrompt (String.intercalate "\n\n" (o.retrieve text)) text lang history)
            = .ok resp ∧
          get_response o text lang history =
            (MEDICAL_ALERT_RESPONSES.lookup c).getD
              ((MEDICAL_ALERT_RESPONSES.lookup "severe_symptoms").getD "")
              ++ "\n\n" ++ resp) ∨
        get_response o text lang history =
          (MEDICAL_ALERT_RESPONSES.lookup c).getD
            ((MEDICAL_ALERT_RESPONSES.lookup "severe_symptoms").getD "")) ∧
      (∀ o' : AIBotOracles,
        o'.reSearch = o.reSearch → o'.retrieve = o.retrieve →
        o'.llm = o.llm → o'.buildPrompt = o.buildPrompt →
        get_response o' text lang history = get_response o text lang history) := by
  intro o text lang history c hc
  have hsnd : (detect_medical_alert o.reSearch text).2 = true := by
    have hiff := detectAlertGo_fst_some_iff_snd o.reSearch (pyLower text)
      MENSTRUAL_MEDICAL_ALERTS
    unfold detect_medical_alert at hc ⊢
    rw [hc] at hiff
    simpa using hiff.symm
  have hmem : c ∈ MENSTRUAL_MEDICAL_ALERTS.map Prod.fst :=
    detectAlertGo_fst_mem o.reSearch (pyLower text) MENSTRUAL_MEDICAL_ALERTS c hc
  have hkeys : MENSTRUAL_MEDICAL_ALERTS.map Prod.fst =
      ["severe_symptoms", "potential_emergency", "chronic_concern"] := by decide
  have hlook : (MEDICAL_ALERT_RESPONSES.lookup c).isSome = true := by
    rw [hkeys] at hmem
    simp only [List.mem_cons, List.mem_singleton, List.not_mem_nil, or_false] at hmem
    rcases hmem with rfl | rfl | rfl <;> decide
  refine ⟨hsnd, hlook, ?_, ?_⟩
  · cases hllm : o.llm
        (o.buildPrompt (String.intercalate "\n\n" (o.retrieve text)) text lang history) with
    | ok resp =>
      left
      exact ⟨resp, rfl, by simp [get_response, hsnd, hc, hllm]⟩
    | error err =>
      right
      simp [get_response, hsnd, hc, hllm]
  · intro o' h1 h2 h3 h4
    obtain ⟨rs, rt, llm, bp, ci⟩ := o
    obtain ⟨rs', rt', llm', bp', ci'⟩ := o'
    simp only at h1 h2 h3 h4
    subst h1; subst h2; subst h3; subst h4
    rfl

/-- C1 (witness): with a regex oracle that matches everything, the text is
classified into the first category `severe_symptoms`, escalation is
positive, and (the LLM failing) the reply is exactly that category's own
template. -/
theorem C1_witness :
    (detect_medical_alert c1_oracles.reSearch "I feel fine").2 = true ∧
    get_response c1_oracles "I feel fine" "en" [] =
      (MEDICAL_ALERT_RESPONSES.lookup "severe_symptoms").getD
        ((MEDICAL_ALERT_RESPONSES.lookup "severe_symptoms").getD "") := by
  have h := C1_crisis_precedence c1_oracles "I feel fine" "en" [] "severe_symptoms"
    (by decide)
  refine ⟨h.1, ?_⟩
  rcases h.2.2.1 with ⟨resp, hok, _⟩ | heq
  · simp [c1_oracles] at hok
  · exact heq

/-- C4: an onboarding text answer that fails its question's validation
constraint leaves the onboarding cursor untouched — the step performs no
`update_user` write at all, in particular none to `onboarding_level` —
and resends the very same question (the resend message last); conversely,
any write the step performs only happens on a valid answer.
Concretely, the input `"-1"` against a `number` constraint with
`min_value = 0` yields `(False, "Value must be at least 0", None)`. -/
theorem C4_onboarding_validation :
    (∀ (reMatch : String → String → Bool) (questions : List (String × Question))
       (current response lang : String) (out : OnboardStep),
       current ≠ "" →
       onboarding_text_step reMatch questions (some current) response lang = some out →
       (((validate_user_response reMatch response current questions lang).1 = false →
           out.level = current ∧ out.writes = [] ∧ out.handlerWrites = [] ∧
           out.resentQuestion = message_builder questions current lang ∧
           out.sent.getLast? = some RESEND_MSG) ∧
        (out.writes ≠ [] →
           (validate_user_response reMatch response current questions lang).1 = true))) ∧
    validate_number "-1" c4_number_constraints "en" =
      (false, some "Value must be at least 0", none) := by
  refine ⟨?_, by decide⟩
  intro rm qs current response lang out hne hstep
  simp only [onboarding_text_step, hne, if_false] at hstep
  cases hv : (validate_user_response rm response current qs lang).1 with
  | false =>
    simp only [hv, Bool.false_eq_true, if_false] at hstep
    cases hmb : message_builder qs current lang with
    | none =>
      rw [hmb] at hstep
      exact absurd hstep (by simp)
    | some mb =>
      rw [hmb] at hstep
      simp only [Option.some.injEq] at hstep
      subst hstep
      refine ⟨fun _ => ⟨rfl, rfl, rfl, rfl, ?_⟩, fun hw => absurd rfl hw⟩
      simp [List.getLast?_concat]
  | true =>
    exact ⟨fun hfalse => absurd hfalse (by simp), fun _ => rfl⟩

/-- C4 (witness): answering `"-1"` to the `age` question of a concrete
question set: validation fails, the step leaves the cursor at `age`,
writes nothing, and resends the `age` question after the error message. -/
theorem C4_witness :
    onboarding_text_step (fun _ _ => false) c4_questions (some "age") "-1" "en"
      = some c4_out ∧
    (validate_user_response (fun _ _ => false) "-1" "age" c4_questions "en").1 = false ∧
    c4_out.level = "age" ∧ c4_out.writes = [] ∧
    c4_out.sent.getLast? = some RESEND_MSG := by
  have hne : ("age" : String) ≠ "" := by decide
  have hstep : onboarding_text_step (fun _ _ => false) c4_questions (some "age") "-1" "en"
      = some c4_out := by decide
  have hinv : (validate_user_response (fun _ _ => false) "-1" "age" c4_questions "en").1
      = false := by decide
  have h := (C4_onboarding_validation.1 (fun _ _ => false) c4_questions "age" "-1" "en"
    c4_out hne hstep).1 hinv
  exact ⟨hstep, hinv, h.1, h.2.1, h.2.2.2.2⟩

/-- C7: when the text-generation service fails or yields `None`, the user
receives only a short generic transient-failure message and never the raw
internal error: (1) the `ai_bot` branch of the handler, given a `None` AI
response, sends the hard-coded difficulties message (followed by the
`None` payload) and does not escalate; (2) `get_response` converts an LLM
exception on the normal path into one of the two fixed localized
technical-difficulties messages; (3) the reply is entirely independent of
the exception's text, so the raw error can never reach the user. -/
theorem C7_generation_failure_handling :
    (∀ lang : String,
       ai_bot_branch lang none =
         ([some "We are experiencing some dificulties. Try again soon", none], false)) ∧
    (∀ (o : AIBotOracles) (text lang : String) (history : List (String × String))
       (e : String),
       o.llm = (fun _ => .error e) →
       (detect_medical_alert o.reSearch text).2 = false →
       (o.retrieve text).isEmpty = false →
       (get_response o text lang history =
          "I\x27m having technical difficulties. Please try again or consult a healthcare provider for medical questions." ∨
        get_response o text lang history =
          "Je rencontre des difficult√©s techniques. Veuillez r√©essayer ou consulter un professionnel de sant√© pour les questions m√©dicales.")) ∧
    (∀ (rs : String → String → Bool) (rt : String → List String)
       (bp : String → String → String → List (String × String) → String)
       (ci : String → String × ℚ) (text lang : String)
       (history : List (String × String)) (e1 e2 : String),
       get_response ⟨rs, rt, fun _ => .error e1, bp, ci⟩ text lang history =
         get_response ⟨rs, rt, fun _ => .error e2, bp, ci⟩ text lang history) := by
  refine ⟨fun lang => rfl, ?_, ?_⟩
  · intro o text lang history e hllm hdet hret
    have hfr : pyLower "french" = "french" := by decide
    by_cases hl : pyLower lang = "fr" ∨ pyLower lang = "french"
    · right
      simp [get_response, hdet, hret, hllm, hl, hfr]
    · left
      simp [get_response, hdet, hret, hllm, hl]
  · intro rs rt bp ci text lang history e1 e2
    rfl

/-- C7 (witness): with no crisis match, a non-empty retrieval and an LLM
raising a socket error, the reply is one of the two fixed localized
apologies; and the handler branch on a `None` response sends the
difficulties message without escalating. -/
theorem C7_witness :
    ai_bot_branch "en" none =
      ([some "We are experiencing some dificulties. Try again soon", none], false) ∧
    (get_response c7_oracles "hello" "en" [] =
       "I\x27m having technical difficulties. Please try again or consult a healthcare provider for medical questions." ∨
     get_response c7_oracles "hello" "en" [] =
       "Je rencontre des difficult√©s techniques. Veuillez r√©essayer ou consulter un professionnel de sant√© pour les questions m√©dicales.") := by
  refine ⟨C7_generation_failure_handling.1 "en", ?_⟩
  exact C7_generation_failure_handling.2.1 c7_oracles "hello" "en" []
    "socket reset by peer" rfl (by decide) (by decide)

end AIChatBot
